import Mathlib

set_option linter.unusedVariables false

/-!
Shallow embedding of the teaching notebook
`Advantage Actor-Critic/06-1-a2c-basic.student.ipynb` (A2C, SAC and
REINFORCE exercises).

Conventions of the embedding:
* Python runtime errors are values of `PyErr`; a fallible Python function
  becomes a Lean function into `Except PyErr _`.
* Dense numeric tensors whose exact float values matter structurally are
  `List (List ℚ)` (a T × B matrix as a list of rows); boolean tensors are
  `List (List Bool)`.
* Tensor entries that may be NaN (the probability tensors fed to the NaN
  assertion) are `Flt` — a rational tagged with a NaN alternative.
* External library calls (the MLP `model`, `torch.softmax`,
  `Categorical(...).entropy()`, `Categorical(...).sample()`, `torch.log`,
  `setup_optimizer`) are parameters of the embedding: the notebook treats
  them as pre-existing services.
* The BBRL workspace is a map from (key, time-step) slots to optional
  tensors; `Agent.set` updates one slot, `Agent.get` reads one slot and
  raises on a missing key.
-/

namespace A2CNotebook

/-- Python exceptions that the embedded code can raise. -/
inductive PyErr where
  | assertionError (msg : String)
  | typeError (msg : String)
  | nameError (msg : String)
  | keyError (msg : String)
  deriving Repr, DecidableEq

/-- `assert b, msg`: succeeds when `b` holds, raises `AssertionError msg`
otherwise. -/
def pyAssert (b : Bool) (msg : String) : Except PyErr Unit :=
  if b then Except.ok () else Except.error (PyErr.assertionError msg)

/-- A float entry: either NaN or an exact value. -/
inductive Flt where
  | nan
  | val (q : ℚ)
  deriving Repr, DecidableEq

/-- `torch.isnan` on one entry. -/
def Flt.isNaN : Flt → Bool
  | Flt.nan => true
  | Flt.val _ => false

/-- A 1-D float tensor. -/
abbrev FTensor := List Flt

/-- A T × B rational matrix (2-D tensor with exact entries). -/
abbrev Mat := List (List ℚ)

/-- A T × B boolean tensor. -/
abbrev BMat := List (List Bool)

/-- A BBRL workspace: each (variable name, time step) slot optionally holds
a tensor. -/
def Workspace := String × Nat → Option FTensor

/-- `self.set((k, t), v)`: write tensor `v` into slot `(k, t)`. -/
def wsSet (ws : Workspace) (k : String) (t : Nat) (v : FTensor) : Workspace :=
  fun p => if p = (k, t) then some v else ws p

/-- `self.get((k, t))`: read slot `(k, t)`, raising `KeyError` when the
slot is empty. -/
def wsGet (ws : Workspace) (k : String) (t : Nat) : Except PyErr FTensor :=
  match ws (k, t) with
  | some v => Except.ok v
  | none => Except.error (PyErr.keyError k)

/-! ### The agents (ProbAgent, StochasticActorAgent, ArgmaxActorAgent,
CriticAgent) -/

/-- `ProbAgent.forward(t)`:
```
observation = self.get(("env/env_obs", t))
scores = self.model(observation)
action_probs = torch.softmax(scores, dim=-1)
assert not torch.any(torch.isnan(action_probs)), "NaN Here"
self.set(("action_probs", t), action_probs)
entropy = torch.distributions.Categorical(action_probs).entropy()
self.set(("entropy", t), entropy)
```
`model` is the pre-built MLP, `softmax` is `torch.softmax`, `entropyFn` is
`Categorical(...).entropy()`; all three are external. -/
def probAgentForward (model softmax : FTensor → FTensor) (entropyFn : FTensor → FTensor)
    (ws : Workspace) (t : Nat) : Except PyErr Workspace := do
  let observation ← wsGet ws "env/env_obs" t
  let scores := model observation
  let action_probs := softmax scores
  pyAssert (!(action_probs.any Flt.isNaN)) "NaN Here"
  let ws := wsSet ws "action_probs" t action_probs
  let entropy := entropyFn action_probs
  let ws := wsSet ws "entropy" t entropy
  return ws

/-- `StochasticActorAgent.forward(t)`:
```
probs = self.get(("action_probs", t))
action = torch.distributions.Categorical(probs).sample()
self.set(("action", t), action)
```
`sampleFn` stands for the external (random) `Categorical(...).sample()`. -/
def stochasticActorForward (sampleFn : FTensor → FTensor)
    (ws : Workspace) (t : Nat) : Except PyErr Workspace := do
  let probs ← wsGet ws "action_probs" t
  let action := sampleFn probs
  return wsSet ws "action" t action

/-- `ArgmaxActorAgent.forward(t)`:
```
probs = self.get(("action_probs", t))
action = probs.argmax(1)
self.set(("action", t), action)
```
`argmaxFn` stands for the external `Tensor.argmax(1)`. -/
def argmaxActorForward (argmaxFn : FTensor → FTensor)
    (ws : Workspace) (t : Nat) : Except PyErr Workspace := do
  let probs ← wsGet ws "action_probs" t
  let action := argmaxFn probs
  return wsSet ws "action" t action

/-- `CriticAgent.forward(t)`:
```
observation = self.get(("env/env_obs", t))
critic = self.critic_model(observation).squeeze(-1)
self.set(("critic", t), critic)
```
`critic_model` composed with the shape-only `squeeze(-1)` is the external
parameter `criticModel`. -/
def criticAgentForward (criticModel : FTensor → FTensor)
    (ws : Workspace) (t : Nat) : Except PyErr Workspace := do
  let observation ← wsGet ws "env/env_obs" t
  let critic := criticModel observation
  return wsSet ws "critic" t critic

/-! ### Tensor arithmetic used by the losses -/

/-- Column-wise sum, `Tensor.sum(axis=0)`, for a T × B matrix with T ≥ 1
(`[]` for T = 0, a shape the callers never produce). -/
def sumAxis0 : Mat → List ℚ
  | [] => []
  | r :: rs => rs.foldl (fun acc row => List.zipWith (· + ·) acc row) r

/-- `torch.zeros_like(reward)`: a fresh all-zero matrix of the same shape. -/
def zerosLike (m : Mat) : Mat :=
  m.map (fun row => row.map (fun _ => (0 : ℚ)))

/-- Sum of all entries of a matrix (`Tensor.sum()`). -/
def sumAll (m : Mat) : ℚ :=
  (m.map (fun row => row.sum)).sum

/-- Number of entries of a matrix (`Tensor.numel()`). -/
def numel (m : Mat) : ℕ :=
  (m.map (fun row => row.length)).sum

/-- `Tensor.mean()`: sum of the entries divided by their count. -/
def tmean (m : Mat) : ℚ :=
  sumAll m / (numel m : ℚ)

/-- Elementwise square, `delta**2`. -/
def tsquare (m : Mat) : Mat :=
  m.map (fun row => row.map (fun q => q * q))

/-! ### The stubbed student exercises -/

/-- A Python value flowing through the stubbed A2C critic loss: the
placeholder `delta = ...` binds the `Ellipsis` object, which only later
code would replace by a tensor. -/
inductive PyVal where
  | ellipsisV
  | tensor (m : Mat)
  | scalar (q : ℚ)
  deriving Repr, DecidableEq

/-- `(delta**2).mean()` on a Python value: defined on tensors, a
`TypeError` on anything else (in particular on `Ellipsis`). -/
def squareMeanVal : PyVal → Except PyErr PyVal
  | PyVal.tensor m => Except.ok (PyVal.scalar (tmean (tsquare m)))
  | _ => Except.error (PyErr.typeError "unsupported operand type for pow")

/-- The A2C `compute_critic_loss(cfg, reward, must_bootstrap, critic)`
student stub:
```
delta = ...
assert False, 'Not implemented yet'
critic_loss = (delta**2).mean()
return critic_loss, delta
```
`Cfg` is irrelevant to the stub; it is kept as a type parameter. -/
def a2cComputeCriticLoss {Cfg : Type} (cfg : Cfg) (reward must_bootstrap critic : Mat) :
    Except PyErr (PyVal × PyVal) := do
  let delta : PyVal := PyVal.ellipsisV
  pyAssert false "Not implemented yet"
  let critic_loss ← squareMeanVal delta
  return (critic_loss, delta)

/-- The return expression of the A2C `compute_critic_loss` stub,
`critic_loss = (delta**2).mean(); return critic_loss, delta`, as it would
evaluate on an actual tensor `delta`. -/
def a2cCriticReturn (delta : Mat) : ℚ × Mat :=
  (tmean (tsquare delta), delta)

/-- The SAC `compute_critic_loss(cfg, reward, must_bootstrap, t_actor,
t_q_agents, t_target_q_agents, rb_workspace, ent_coef)` student stub:
```
assert False, 'Not implemented yet'
assert False, 'Not implemented yet'
return critic_loss_1, critic_loss_2
```
The trailing return names `critic_loss_1`/`critic_loss_2` that no code
defined, so even without the assertions it would raise `NameError`. The
agent, workspace and configuration arguments are type parameters. -/
def sacComputeCriticLoss {Cfg Ag Wsp : Type} (cfg : Cfg) (reward must_bootstrap : Mat)
    (t_actor t_q_agents t_target_q_agents : Ag) (rb_workspace : Wsp)
    (ent_coef : Flt) : Except PyErr (PyVal × PyVal) := do
  pyAssert false "Not implemented yet"
  pyAssert false "Not implemented yet"
  Except.error (PyErr.nameError "critic_loss_1")

/-- The REINFORCE default `compute_advantage(cfg, reward, v_value)`:
its whole body is the bare expression `...` (the `Ellipsis` object), so
the function performs nothing and falls off its end, returning `None`. -/
def reinforceComputeAdvantage {Cfg : Type} (cfg : Cfg) (reward : Mat)
    (v_value : Option Mat) : Except PyErr (Option Mat) :=
  Except.ok none

/-! ### The training loop bodies (`run_a2c` and the REINFORCE `run`) -/

/-- External calls a loop iteration can reach, in order. -/
inductive Event where
  | criticCall
  | evaluateCall
  deriving Repr, DecidableEq

/-- `~terminated`: elementwise logical negation of a boolean tensor. -/
def tildeNot (m : BMat) : BMat :=
  m.map (fun row => row.map (fun b => !b))

/-- Outcome of one iteration of a training loop body: the external calls
made, the `must_bootstrap` tensor the body computed, and the exception it
raised (if any). -/
structure IterOutcome where
  events : List Event
  must_bootstrap : BMat
  error : Option PyErr
  deriving Repr, DecidableEq

/-- One iteration of the `run_a2c` loop body:
```
t_critic_agent(train_workspace, n_steps=...)   # external call
transition_workspace = train_workspace.get_transitions()
critic, reward, action, action_probs, terminated = transition_workspace[...]
must_bootstrap = ~terminated
assert False, 'Not implemented yet'           # loss computation placeholder
a2c.evaluate()
```
The body is modelled on the extracted `terminated` tensor; the critic
call and `a2c.evaluate()` are recorded as events. -/
def runA2CIter (terminated : BMat) : IterOutcome :=
  let must_bootstrap := tildeNot terminated
  match pyAssert false "Not implemented yet" with
  | Except.error e =>
      { events := [Event.criticCall], must_bootstrap := must_bootstrap,
        error := some e }
  | Except.ok _ =>
      { events := [Event.criticCall, Event.evaluateCall],
        must_bootstrap := must_bootstrap, error := none }

/-- One iteration of the REINFORCE `run` loop body:
```
terminated, done, action_probs, reward, action = train_workspace[...]
must_bootstrap = ~terminated
assert False, 'Not implemented yet'           # main learning loop placeholder
reinforce.evaluate()
```
-/
def reinforceRunIter (terminated : BMat) : IterOutcome :=
  let must_bootstrap := tildeNot terminated
  match pyAssert false "Not implemented yet" with
  | Except.error e =>
      { events := [], must_bootstrap := must_bootstrap, error := some e }
  | Except.ok _ =>
      { events := [Event.evaluateCall], must_bootstrap := must_bootstrap,
        error := none }

/-! ### `apply_sum` (REINFORCE, sum-of-rewards variant)

`apply_sum` mutates a tensor in place (`reward[i] = reward_sum`), so it is
embedded against an explicit heap of tensors: Python tensor objects are
heap cells, a tensor-valued variable is an address, `torch.zeros_like`
allocates a fresh cell, and the subscript assignment writes a row of an
addressed cell. -/

/-- A heap of tensor objects, addressed by position. -/
abbrev Heap := List Mat

/-- `apply_sum(cfg, reward, *args)` on heap `σ` with the caller's tensor at
address `r`:
```
reward_sum = reward.sum(axis=0)
reward = torch.zeros_like(reward)          # rebinds the local name to a fresh tensor
for i in range(len(reward)):
    reward[i] = reward_sum                 # writes rows of the fresh tensor
return reward
```
Returns the heap after the call and the address of the returned tensor. -/
def applySum {Cfg : Type} (cfg : Cfg) (σ : Heap) (r : Nat) : Heap × Nat :=
  let reward := σ.getD r []
  let reward_sum := sumAxis0 reward
  let fresh := zerosLike reward
  let a := σ.length
  let σ₁ := σ ++ [fresh]
  let σ₂ := (List.range fresh.length).foldl
    (fun s i => s.set a ((s.getD a []).set i reward_sum)) σ₁
  (σ₂, a)

/-- Reference mathematical definition (from the spec): the result has the
shape of `reward` and every row is the columnwise sum of `reward`,
`result[i][j] = sum over t of reward[t][j]`. -/
def applySumRef (reward : Mat) : Mat :=
  let colSums := (List.range (reward.headD []).length).map
    (fun j => (reward.map (fun row => row.getD j 0)).sum)
  reward.map (fun _ => colSums)

/-! ### `setup_entropy_optimizers` (SAC) -/

/-- Optimizer configuration, an opaque dictionary. -/
structure OptCfg where
  id : Nat
  deriving Repr, DecidableEq

/-- The object built by the external `setup_optimizer(cfg, params)`: it
pairs its configuration with the parameters it optimizes. -/
structure Optimizer where
  optCfg : OptCfg
  params : List ℚ
  deriving Repr, DecidableEq

/-- The `cfg.algorithm` fields read by `setup_entropy_optimizers`. -/
structure AlgCfg where
  entropy_mode : String
  init_entropy_coef : ℚ
  deriving Repr, DecidableEq

/-- The configuration fields read by `setup_entropy_optimizers`. -/
structure EntCfg where
  algorithm : AlgCfg
  entropy_coef_optimizer : OptCfg
  deriving Repr, DecidableEq

/-- `setup_entropy_optimizers(cfg)`:
```
if cfg.algorithm.entropy_mode == "auto":
    log_entropy_coef = nn.Parameter(torch.log(torch.ones(1) * cfg.algorithm.init_entropy_coef))
    entropy_coef_optimizer = setup_optimizer(cfg.entropy_coef_optimizer, log_entropy_coef)
    return entropy_coef_optimizer, log_entropy_coef
else:
    return None, None
```
`torchLog` is the external `torch.log` applied entrywise. -/
def setupEntropyOptimizers (torchLog : ℚ → ℚ) (cfg : EntCfg) :
    Option Optimizer × Option (List ℚ) :=
  if cfg.algorithm.entropy_mode = "auto" then
    let log_entropy_coef := ([(1 : ℚ)].map (fun o => o * cfg.algorithm.init_entropy_coef)).map torchLog
    let entropy_coef_optimizer : Optimizer :=
      { optCfg := cfg.entropy_coef_optimizer, params := log_entropy_coef }
    (some entropy_coef_optimizer, some log_entropy_coef)
  else
    (none, none)

/-! ### `SACAlgo.__init__` -/

/-- The outcome of `SACAlgo.__init__` that the embedding observes: the
constructor either raises or completes having built the actor, the two
critics and their targets (external constructions, recorded only as
having happened). -/
structure SACState where
  built : Bool
  deriving Repr, DecidableEq

/-- `SACAlgo.__init__(cfg)`:
```
obs_size, act_size = self.train_env.get_obs_and_actions_sizes()
assert self.train_env.is_continuous_action(), "SAC code dedicated to continuous actions"
self.actor = SquashedGaussianActor(...)
self.critic_1 = ...; self.target_critic_1 = ...
self.critic_2 = ...; self.target_critic_2 = ...
self.train_policy = self.actor
self.eval_policy = KWAgentWrapper(self.actor, stochastic=False)
```
`isContinuous` is `self.train_env.is_continuous_action()`; the network
constructions are external. -/
def sacAlgoInit (isContinuous : Bool) : Except PyErr SACState := do
  pyAssert isContinuous "SAC code dedicated to continuous actions"
  return { built := true }

/-! ### Helper notions for the theorems -/

/-- Entry `(i, j)` of a 2-D tensor, `none` when out of range. -/
def entry? {α : Type} (m : List (List α)) (i j : Nat) : Option α :=
  m[i]?.bind (fun row => row[j]?)

theorem entry?_tildeNot (m : BMat) (i j : Nat) :
    entry? (tildeNot m) i j = (entry? m i j).map (fun b => !b) := by
  cases h : m[i]? with
  | none => simp [entry?, tildeNot, List.getElem?_map, h]
  | some row => simp [entry?, tildeNot, List.getElem?_map, h]

theorem runA2CIter_must_bootstrap (terminated : BMat) :
    (runA2CIter terminated).must_bootstrap = tildeNot terminated := rfl

theorem reinforceRunIter_must_bootstrap (terminated : BMat) :
    (reinforceRunIter terminated).must_bootstrap = tildeNot terminated := rfl

end A2CNotebook

namespace A2CNotebook

/-! ## The claims -/

/-- C1 (amended): the A2C `compute_critic_loss` stub and the SAC
`compute_critic_loss` stub raise `AssertionError` with message
`'Not implemented yet'` on every input before returning any value, but
the REINFORCE default `compute_advantage` is a bare-`...` stub that
returns `None` without raising. -/
theorem c1_stub_behavior {Cfg Ag Wsp : Type} (cfg : Cfg) (reward must_bootstrap critic : Mat)
    (t_actor t_q_agents t_target_q_agents : Ag) (rb_workspace : Wsp) (ent_coef : Flt)
    (v_value : Option Mat) :
    a2cComputeCriticLoss cfg reward must_bootstrap critic
        = Except.error (PyErr.assertionError "Not implemented yet") ∧
    sacComputeCriticLoss cfg reward must_bootstrap t_actor t_q_agents t_target_q_agents
        rb_workspace ent_coef
        = Except.error (PyErr.assertionError "Not implemented yet") ∧
    reinforceComputeAdvantage cfg reward v_value = Except.ok none :=
  ⟨rfl, rfl, rfl⟩

/-- C1 counterexample: calling the REINFORCE default `compute_advantage`
on a concrete input returns `None` and does not raise `AssertionError`,
so not every incomplete student function raises `'Not implemented yet'`. -/
theorem c1_counterexample :
    @reinforceComputeAdvantage Unit () [[1]] none = Except.ok none ∧
    @reinforceComputeAdvantage Unit () [[1]] none
      ≠ Except.error (PyErr.assertionError "Not implemented yet") := by
  refine ⟨rfl, ?_⟩
  simp [reinforceComputeAdvantage]

/-- C2: in both the `run_a2c` loop body and the REINFORCE `run` loop body,
the `must_bootstrap` tensor is the elementwise logical negation of the
`env/terminated` tensor; in particular an entry of `terminated` is `true`
exactly when the corresponding entry of `must_bootstrap` is `false`. -/
theorem c2_must_bootstrap_negation (terminated : BMat) (i j : Nat) :
    entry? (runA2CIter terminated).must_bootstrap i j
        = (entry? terminated i j).map (fun b => !b) ∧
    entry? (reinforceRunIter terminated).must_bootstrap i j
        = (entry? terminated i j).map (fun b => !b) ∧
    (entry? terminated i j = some true
        ↔ entry? (runA2CIter terminated).must_bootstrap i j = some false) ∧
    (entry? terminated i j = some true
        ↔ entry? (reinforceRunIter terminated).must_bootstrap i j = some false) := by
  have h1 : entry? (runA2CIter terminated).must_bootstrap i j
      = (entry? terminated i j).map (fun b => !b) := by
    rw [runA2CIter_must_bootstrap, entry?_tildeNot]
  have h2 : entry? (reinforceRunIter terminated).must_bootstrap i j
      = (entry? terminated i j).map (fun b => !b) := by
    rw [reinforceRunIter_must_bootstrap, entry?_tildeNot]
  refine ⟨h1, h2, ?_, ?_⟩
  · rw [h1]
    rcases h : entry? terminated i j with _ | b
    · simp
    · cases b <;> simp
  · rw [h2]
    rcases h : entry? terminated i j with _ | b
    · simp
    · cases b <;> simp

/-- C3 (amended): for every input, the A2C `compute_critic_loss` raises
`AssertionError 'Not implemented yet'` instead of returning; its trailing
return expression, evaluated on an actual tensor `delta`, yields a pair
whose first component is the mean (sum over count) of the elementwise
square of `delta` and whose second component is `delta` itself. -/
theorem c3_critic_loss_stub {Cfg : Type} (cfg : Cfg) (reward must_bootstrap critic : Mat)
    (delta : Mat) (i j : Nat) :
    a2cComputeCriticLoss cfg reward must_bootstrap critic
        = Except.error (PyErr.assertionError "Not implemented yet") ∧
    (a2cCriticReturn delta).2 = delta ∧
    (a2cCriticReturn delta).1 = sumAll (tsquare delta) / (numel delta : ℚ) ∧
    entry? (tsquare delta) i j = (entry? delta i j).map (fun q => q * q) := by
  refine ⟨rfl, rfl, ?_, ?_⟩
  · have hn : numel (tsquare delta) = numel delta := by
      simp [numel, tsquare, Function.comp_def]
    simp [a2cCriticReturn, tmean, hn]
  · cases h : delta[i]? with
    | none => simp [entry?, tsquare, List.getElem?_map, h]
    | some row => simp [entry?, tsquare, List.getElem?_map, h]

/-- C3 counterexample: on a concrete input, the A2C `compute_critic_loss`
raises `AssertionError` and produces no result at all, so it does not
return a pair of the critic loss and `delta`. -/
theorem c3_counterexample :
    @a2cComputeCriticLoss Unit () [[1]] [[1]] [[1]]
        = Except.error (PyErr.assertionError "Not implemented yet") ∧
    (@a2cComputeCriticLoss Unit () [[1]] [[1]] [[1]]).toOption = none :=
  ⟨rfl, rfl⟩

/-- C4 (amended): the `run_a2c` loop body textually ends with an
`a2c.evaluate()` call, but every iteration raises
`AssertionError 'Not implemented yet'` at the loss-computation
placeholder first: the only external call an iteration performs is the
temporal critic agent call, and the evaluation call is never reached. -/
theorem c4_no_evaluate (terminated : BMat) :
    (runA2CIter terminated).events = [Event.criticCall] ∧
    (runA2CIter terminated).error
        = some (PyErr.assertionError "Not implemented yet") :=
  ⟨rfl, rfl⟩

/-- C4 counterexample: in a concrete iteration of the `run_a2c` loop, the
body stops with `AssertionError` and `a2c.evaluate()` is not among the
calls performed, so the loop body does not reach `a2c.evaluate()`. -/
theorem c4_counterexample :
    Event.evaluateCall ∉ (runA2CIter [[false]]).events ∧
    (runA2CIter [[false]]).error = some (PyErr.assertionError "Not implemented yet") := by
  refine ⟨?_, rfl⟩
  decide

/-! ### Evaluation lemmas for the agents -/

theorem probAgentForward_eq (m s e : FTensor → FTensor) (ws : Workspace) (t : Nat)
    (obs : FTensor) (hobs : ws ("env/env_obs", t) = some obs) :
    probAgentForward m s e ws t =
      if (s (m obs)).any Flt.isNaN = true then
        Except.error (PyErr.assertionError "NaN Here")
      else
        Except.ok (wsSet (wsSet ws "action_probs" t (s (m obs))) "entropy" t
          (e (s (m obs)))) := by
  unfold probAgentForward wsGet
  rw [hobs]
  simp only [pyAssert, Bind.bind, Except.bind]
  cases h : (s (m obs)).any Flt.isNaN
  · rfl
  · rfl

theorem stochasticActorForward_eq (sf : FTensor → FTensor) (ws : Workspace) (t : Nat)
    (ap : FTensor) (hap : ws ("action_probs", t) = some ap) :
    stochasticActorForward sf ws t = Except.ok (wsSet ws "action" t (sf ap)) := by
  simp [stochasticActorForward, wsGet, hap, Except.bind]

theorem argmaxActorForward_eq (am : FTensor → FTensor) (ws : Workspace) (t : Nat)
    (ap : FTensor) (hap : ws ("action_probs", t) = some ap) :
    argmaxActorForward am ws t = Except.ok (wsSet ws "action" t (am ap)) := by
  simp [argmaxActorForward, wsGet, hap, Except.bind]

theorem criticAgentForward_eq (cm : FTensor → FTensor) (ws : Workspace) (t : Nat)
    (obs : FTensor) (hobs : ws ("env/env_obs", t) = some obs) :
    criticAgentForward cm ws t = Except.ok (wsSet ws "critic" t (cm obs)) := by
  simp [criticAgentForward, wsGet, hobs, Except.bind]

theorem wsSet_ne (ws : Workspace) (k : String) (t : Nat) (v : FTensor)
    (p : String × Nat) (h : p ≠ (k, t)) : wsSet ws k t v p = ws p := by
  simp [wsSet, h]

theorem wsSet_self (ws : Workspace) (k : String) (t : Nat) (v : FTensor) :
    wsSet ws k t v (k, t) = some v := by
  simp [wsSet]

/-! ### Concrete fixtures used by witnesses and counterexamples -/

/-- A workspace holding only the observation at time 0. -/
def obsWs : Workspace := fun p =>
  if p = ("env/env_obs", 0) then some [Flt.val 1] else none

/-- A workspace holding only the action probabilities at time 0. -/
def apWs : Workspace := fun p =>
  if p = ("action_probs", 0) then some [Flt.val 1, Flt.val 0] else none

/-- A workspace holding both the observation and the action probabilities
at time 0. -/
def bothWs : Workspace := fun p =>
  if p = ("env/env_obs", 0) then some [Flt.val 1]
  else if p = ("action_probs", 0) then some [Flt.val 1, Flt.val 0]
  else none

/-- A two-output network standing in for a pre-built MLP. -/
def constModel : FTensor → FTensor := fun _ => [Flt.val 2, Flt.val 1]

/-- A stand-in for `torch.softmax` producing a uniform distribution. -/
def constSoftmax : FTensor → FTensor := fun _ => [Flt.val 1, Flt.val 0]

/-- A stand-in for `torch.softmax` producing a NaN entry. -/
def nanSoftmax : FTensor → FTensor := fun _ => [Flt.nan]

/-- A stand-in for `Categorical(...).entropy()`. -/
def constEntropy : FTensor → FTensor := fun _ => [Flt.val 1]

/-- A stand-in for `sample()`/`argmax(1)` picking index 0. -/
def pickFirst : FTensor → FTensor := fun _ => [Flt.val 0]

/-- C5 (amended): not every assertion in the program is a
`'Not implemented yet'` placeholder: `ProbAgent.forward` carries a
substantive NaN runtime check that raises
`AssertionError "NaN Here"` exactly when the action-probability tensor
contains a NaN, and `SACAlgo.__init__` carries a substantive
continuous-action check that raises
`AssertionError "SAC code dedicated to continuous actions"` exactly when
the training environment is not continuous-action. -/
theorem c5_substantive_assertions (m s e : FTensor → FTensor) (ws : Workspace)
    (t : Nat) (obs : FTensor) (hobs : ws ("env/env_obs", t) = some obs)
    (isCont : Bool) :
    (probAgentForward m s e ws t = Except.error (PyErr.assertionError "NaN Here")
        ↔ (s (m obs)).any Flt.isNaN = true) ∧
    (sacAlgoInit isCont
        = Except.error (PyErr.assertionError "SAC code dedicated to continuous actions")
        ↔ isCont = false) ∧
    "NaN Here" ≠ "Not implemented yet" ∧
    "SAC code dedicated to continuous actions" ≠ "Not implemented yet" := by
  refine ⟨?_, ?_, by decide, by decide⟩
  · rw [probAgentForward_eq m s e ws t obs hobs]
    cases h : (s (m obs)).any Flt.isNaN <;> simp
  · cases isCont <;> simp [sacAlgoInit, pyAssert, Except.bind]

/-- C5 witness: the NaN assertion fires on a concrete workspace whose
softmax output contains NaN, with a message that is not the placeholder
message. -/
theorem c5_witness :
    probAgentForward constModel nanSoftmax constEntropy obsWs 0
      = Except.error (PyErr.assertionError "NaN Here") :=
  (c5_substantive_assertions constModel nanSoftmax constEntropy obsWs 0
      [Flt.val 1] (by decide) false).1.mpr (by decide)

/-- C5 counterexample: the program contains assertions that are not
`'Not implemented yet'` placeholders: on a concrete input,
`ProbAgent.forward` raises `AssertionError "NaN Here"` and
`SACAlgo.__init__` raises
`AssertionError "SAC code dedicated to continuous actions"`. -/
theorem c5_counterexample :
    probAgentForward pickFirst nanSoftmax constEntropy obsWs 0
      = Except.error (PyErr.assertionError "NaN Here") ∧
    sacAlgoInit false
      = Except.error (PyErr.assertionError "SAC code dedicated to continuous actions") ∧
    "NaN Here" ≠ "Not implemented yet" := by
  refine ⟨?_, rfl, by decide⟩
  rfl

/-- C9: when the workspace holds an observation at time `t`,
`ProbAgent.forward(t)` raises `AssertionError "NaN Here"` exactly when
the softmax of the model scores contains a NaN entry; when no entry is
NaN it writes the `action_probs` tensor and its categorical entropy into
the workspace at time `t`. -/
theorem c9_prob_agent_nan (m s e : FTensor → FTensor) (ws : Workspace) (t : Nat)
    (obs : FTensor) (hobs : ws ("env/env_obs", t) = some obs) :
    (probAgentForward m s e ws t = Except.error (PyErr.assertionError "NaN Here")
        ↔ (s (m obs)).any Flt.isNaN = true) ∧
    ((s (m obs)).any Flt.isNaN = false →
      probAgentForward m s e ws t
        = Except.ok (wsSet (wsSet ws "action_probs" t (s (m obs))) "entropy" t
            (e (s (m obs))))) := by
  constructor
  · rw [probAgentForward_eq m s e ws t obs hobs]
    cases h : (s (m obs)).any Flt.isNaN <;> simp
  · intro h
    rw [probAgentForward_eq m s e ws t obs hobs, h]
    simp

/-- C9 witness: on a concrete workspace with a NaN-free softmax output,
`ProbAgent.forward(0)` writes the probabilities and their entropy at
time 0. -/
theorem c9_witness :
    probAgentForward constModel constSoftmax constEntropy obsWs 0
      = Except.ok (wsSet (wsSet obsWs "action_probs" 0
            (constSoftmax (constModel [Flt.val 1]))) "entropy" 0
            (constEntropy (constSoftmax (constModel [Flt.val 1])))) :=
  (c9_prob_agent_nan constModel constSoftmax constEntropy obsWs 0
      [Flt.val 1] (by decide)).2 (by decide)

/-- C7 (amended): the agents' `forward(t)` methods are thin wrappers, but
they do not all read the observation and apply a network:
`ProbAgent.forward` reads the observation at `t`, applies its model and
softmax, and writes `action_probs` and `entropy` at `t`;
`CriticAgent.forward` reads the observation at `t`, applies its critic
model, and writes `critic` at `t`; `StochasticActorAgent.forward` and
`ArgmaxActorAgent.forward` instead read `action_probs` at `t` and write
`action` at `t`. Every (key, time) slot other than the ones an agent
writes at time `t` is left unchanged. -/
theorem c7_agents_frame (m s e sf am cm : FTensor → FTensor) (ws : Workspace)
    (t : Nat) (obs ap : FTensor) (k : String) (u : Nat)
    (hobs : ws ("env/env_obs", t) = some obs)
    (hap : ws ("action_probs", t) = some ap)
    (res₁ res₂ res₃ res₄ : Workspace)
    (h₁ : probAgentForward m s e ws t = Except.ok res₁)
    (h₂ : stochasticActorForward sf ws t = Except.ok res₂)
    (h₃ : argmaxActorForward am ws t = Except.ok res₃)
    (h₄ : criticAgentForward cm ws t = Except.ok res₄) :
    res₁ ("action_probs", t) = some (s (m obs)) ∧
    res₁ ("entropy", t) = some (e (s (m obs))) ∧
    res₂ ("action", t) = some (sf ap) ∧
    res₃ ("action", t) = some (am ap) ∧
    res₄ ("critic", t) = some (cm obs) ∧
    ((k, u) ≠ ("action_probs", t) → (k, u) ≠ ("entropy", t) →
        res₁ (k, u) = ws (k, u)) ∧
    ((k, u) ≠ ("action", t) → res₂ (k, u) = ws (k, u)) ∧
    ((k, u) ≠ ("action", t) → res₃ (k, u) = ws (k, u)) ∧
    ((k, u) ≠ ("critic", t) → res₄ (k, u) = ws (k, u)) := by
  rw [probAgentForward_eq m s e ws t obs hobs] at h₁
  rw [stochasticActorForward_eq sf ws t ap hap] at h₂
  rw [argmaxActorForward_eq am ws t ap hap] at h₃
  rw [criticAgentForward_eq cm ws t obs hobs] at h₄
  have hres₂ : res₂ = wsSet ws "action" t (sf ap) := by
    cases h₂; rfl
  have hres₃ : res₃ = wsSet ws "action" t (am ap) := by
    cases h₃; rfl
  have hres₄ : res₄ = wsSet ws "critic" t (cm obs) := by
    cases h₄; rfl
  cases hnan : (s (m obs)).any Flt.isNaN
  · rw [hnan] at h₁
    simp only [Bool.false_eq_true, if_false] at h₁
    have hres₁ : res₁ = wsSet (wsSet ws "action_probs" t (s (m obs))) "entropy" t
        (e (s (m obs))) := by
      cases h₁; rfl
    subst hres₁ hres₂ hres₃ hres₄
    refine ⟨?_, wsSet_self _ _ _ _, wsSet_self _ _ _ _, wsSet_self _ _ _ _,
        wsSet_self _ _ _ _, ?_, ?_, ?_, ?_⟩
    · rw [wsSet_ne _ _ _ _ _ (by simp), wsSet_self]
    · intro hku₁ hku₂
      rw [wsSet_ne _ _ _ _ _ hku₂, wsSet_ne _ _ _ _ _ hku₁]
    · intro hku
      rw [wsSet_ne _ _ _ _ _ hku]
    · intro hku
      rw [wsSet_ne _ _ _ _ _ hku]
    · intro hku
      rw [wsSet_ne _ _ _ _ _ hku]
  · rw [hnan] at h₁
    simp at h₁

/-- C7 witness: on a concrete workspace holding the observation and the
action probabilities at time 0, `CriticAgent.forward(0)` writes the
critic value at `("critic", 0)` and leaves an unrelated slot
`("zz", 9)` unchanged. -/
theorem c7_witness :
    (wsSet bothWs "critic" 0 (constModel [Flt.val 1])) ("critic", 0)
      = some (constModel [Flt.val 1]) ∧
    (wsSet bothWs "critic" 0 (constModel [Flt.val 1])) ("zz", 9)
      = bothWs ("zz", 9) := by
  have H := c7_agents_frame constModel constSoftmax constEntropy pickFirst pickFirst
    constModel bothWs 0 [Flt.val 1] [Flt.val 1, Flt.val 0] "zz" 9
    (by decide) (by decide)
    (wsSet (wsSet bothWs "action_probs" 0 (constSoftmax (constModel [Flt.val 1])))
      "entropy" 0 (constEntropy (constSoftmax (constModel [Flt.val 1]))))
    (wsSet bothWs "action" 0 (pickFirst [Flt.val 1, Flt.val 0]))
    (wsSet bothWs "action" 0 (pickFirst [Flt.val 1, Flt.val 0]))
    (wsSet bothWs "critic" 0 (constModel [Flt.val 1]))
    rfl rfl rfl rfl
  exact ⟨H.2.2.2.2.1, H.2.2.2.2.2.2.2.2 (by decide)⟩

/-- C7 counterexample: `ArgmaxActorAgent.forward(0)` succeeds on a
concrete workspace that holds no observation at all — so it does not
read the observation or apply a network — and `ProbAgent.forward(0)`
fills two previously-empty slots, `("action_probs", 0)` and
`("entropy", 0)`, not a single result slot. -/
theorem c7_counterexample :
    argmaxActorForward pickFirst apWs 0
      = Except.ok (wsSet apWs "action" 0 [Flt.val 0]) ∧
    apWs ("env/env_obs", 0) = none ∧
    (probAgentForward constModel constSoftmax constEntropy obsWs 0).map
        (fun res => res ("action_probs", 0))
      = Except.ok (some [Flt.val 1, Flt.val 0]) ∧
    (probAgentForward constModel constSoftmax constEntropy obsWs 0).map
        (fun res => res ("entropy", 0))
      = Except.ok (some [Flt.val 1]) ∧
    obsWs ("action_probs", 0) = none ∧
    obsWs ("entropy", 0) = none :=
  ⟨rfl, rfl, rfl, rfl, rfl, rfl⟩

/-! ### Arithmetic of `apply_sum` -/

theorem getD_zipWith_add (l₁ l₂ : List ℚ) (j : Nat) (h : l₁.length = l₂.length) :
    (List.zipWith (· + ·) l₁ l₂).getD j 0 = l₁.getD j 0 + l₂.getD j 0 := by
  induction l₁ generalizing l₂ j with
  | nil =>
    cases l₂ with
    | nil => simp
    | cons b bs => simp at h
  | cons a as ih =>
    cases l₂ with
    | nil => simp at h
    | cons b bs =>
      cases j with
      | zero => simp
      | succ j =>
        simpa using ih bs j (by simpa using h)

theorem range_map_getD (l : List ℚ) :
    (List.range l.length).map (fun j => l.getD j 0) = l := by
  induction l with
  | nil => simp
  | cons a as ih =>
    have hmap : ((List.range as.length).map Nat.succ).map (fun j => (a :: as).getD j 0)
        = (List.range as.length).map (fun j => as.getD j 0) := by
      rw [List.map_map]
      rfl
    rw [List.length_cons, List.range_succ_eq_map, List.map_cons, hmap, ih]
    rfl

theorem foldl_zipWith_add (rows : List (List ℚ)) (acc : List ℚ)
    (h : ∀ row ∈ rows, row.length = acc.length) :
    rows.foldl (fun a row => List.zipWith (· + ·) a row) acc
      = (List.range acc.length).map
          (fun j => acc.getD j 0 + ((rows.map (fun r => r.getD j 0)).sum)) := by
  induction rows generalizing acc with
  | nil =>
    have : (List.range acc.length).map
        (fun j => acc.getD j 0 + (([] : List (List ℚ)).map (fun r => r.getD j 0)).sum)
        = (List.range acc.length).map (fun j => acc.getD j 0) := by
      simp
    rw [List.foldl_nil, this, range_map_getD]
  | cons row rs ih =>
    have hrow : row.length = acc.length := h row (List.mem_cons_self _ _)
    have hlen : (List.zipWith (· + ·) acc row).length = acc.length := by
      rw [List.length_zipWith, hrow, Nat.min_self]
    have h' : ∀ r ∈ rs, r.length = (List.zipWith (· + ·) acc row).length := by
      intro r hr
      rw [hlen]
      exact h r (List.mem_cons_of_mem _ hr)
    rw [List.foldl_cons, ih _ h', hlen]
    have hfun : (fun j => (List.zipWith (· + ·) acc row).getD j 0
            + ((rs.map (fun r => r.getD j 0)).sum))
        = (fun j => acc.getD j 0
            + (((row :: rs).map (fun r => r.getD j 0)).sum)) := by
      funext j
      rw [getD_zipWith_add acc row j hrow.symm, List.map_cons, List.sum_cons, add_assoc]
    rw [hfun]

theorem sumAxis0_eq (reward : Mat) (B : Nat)
    (hrect : ∀ row ∈ reward, row.length = B) (hne : reward ≠ []) :
    sumAxis0 reward
      = (List.range B).map (fun j => (reward.map (fun r => r.getD j 0)).sum) := by
  cases reward with
  | nil => exact absurd rfl hne
  | cons r rs =>
    have hr : r.length = B := hrect r (List.mem_cons_self _ _)
    have hrs : ∀ row ∈ rs, row.length = r.length := by
      intro row hrow
      rw [hr]
      exact hrect row (List.mem_cons_of_mem _ hrow)
    show rs.foldl (fun acc row => List.zipWith (· + ·) acc row) r = _
    rw [foldl_zipWith_add rs r hrs, hr]
    have hfun : (fun j => r.getD j 0 + ((rs.map (fun x => x.getD j 0)).sum))
        = (fun j => (((r :: rs).map (fun x => x.getD j 0)).sum)) := by
      funext j
      rw [List.map_cons, List.sum_cons]
    rw [hfun]

theorem sumAxis0_length (reward : Mat) (B : Nat)
    (hrect : ∀ row ∈ reward, row.length = B) (hne : reward ≠ []) :
    (sumAxis0 reward).length = B := by
  rw [sumAxis0_eq reward B hrect hne, List.length_map, List.length_range]

/-! ### Heap behavior of `apply_sum` -/

theorem storeFold_getD (rng : List Nat) (σ : Heap) (a : Nat) (v : List ℚ)
    (ha : a < σ.length) :
    (rng.foldl (fun s i => s.set a ((s.getD a []).set i v)) σ).getD a []
      = rng.foldl (fun c i => c.set i v) (σ.getD a []) := by
  induction rng generalizing σ with
  | nil => rfl
  | cons i rng ih =>
    rw [List.foldl_cons, List.foldl_cons]
    have ha' : a < (σ.set a ((σ.getD a []).set i v)).length := by
      rw [List.length_set]
      exact ha
    rw [ih _ ha']
    congr 1
    simp [List.getD_eq_getElem?_getD, List.getElem?_set_self ha]

theorem storeFold_getElem?_ne (rng : List Nat) (σ : Heap) (a : Nat) (v : List ℚ)
    (i : Nat) (hi : i ≠ a) :
    (rng.foldl (fun s k => s.set a ((s.getD a []).set k v)) σ)[i]? = σ[i]? := by
  induction rng generalizing σ with
  | nil => rfl
  | cons k rng ih =>
    rw [List.foldl_cons, ih]
    exact List.getElem?_set_ne (fun h => hi h.symm)

theorem cellFold_getElem? (rng : List Nat) (cell : Mat) (v : List ℚ) (j : Nat) :
    (rng.foldl (fun acc i => acc.set i v) cell)[j]?
      = if j ∈ rng ∧ j < cell.length then some v else cell[j]? := by
  induction rng generalizing cell with
  | nil => simp
  | cons i rng ih =>
    rw [List.foldl_cons, ih, List.length_set]
    by_cases hmem : j ∈ rng ∧ j < cell.length
    · rw [if_pos hmem, if_pos ⟨List.mem_cons_of_mem _ hmem.1, hmem.2⟩]
    · rw [if_neg hmem]
      by_cases hij : j = i
      · subst hij
        by_cases hlt : j < cell.length
        · rw [if_pos ⟨List.mem_cons_self _ _, hlt⟩, List.getElem?_set_self hlt]
        · rw [if_neg (fun hc => hlt hc.2), List.set_eq_of_length_le (by omega)]
      · rw [List.getElem?_set_ne (fun h => hij h.symm)]
        rw [if_neg]
        intro hc
        rcases List.mem_cons.1 hc.1 with h | h
        · exact hij h
        · exact hmem ⟨h, hc.2⟩

theorem cellFold_range (cell : Mat) (v : List ℚ) :
    (List.range cell.length).foldl (fun acc i => acc.set i v) cell
      = List.replicate cell.length v := by
  apply List.ext_getElem?
  intro j
  rw [cellFold_getElem?]
  by_cases hj : j < cell.length
  · rw [if_pos ⟨List.mem_range.2 hj, hj⟩, List.getElem?_replicate_of_lt hj]
  · rw [if_neg (fun hc => hj hc.2), List.getElem?_eq_none (by omega),
      List.getElem?_eq_none (by rw [List.length_replicate]; omega)]

theorem applySum_val {Cfg : Type} (cfg : Cfg) (σ : Heap) (r : Nat) :
    (applySum cfg σ r).1.getD (applySum cfg σ r).2 []
      = List.replicate (σ.getD r []).length (sumAxis0 (σ.getD r [])) := by
  have ha : σ.length < (σ ++ [zerosLike (σ.getD r [])]).length := by
    rw [List.length_append, List.length_singleton]
    omega
  show (((List.range (zerosLike (σ.getD r [])).length).foldl
      (fun s i => s.set σ.length ((s.getD σ.length []).set i (sumAxis0 (σ.getD r []))))
      (σ ++ [zerosLike (σ.getD r [])])).getD σ.length []) = _
  rw [storeFold_getD _ _ _ _ ha]
  have hbase : (σ ++ [zerosLike (σ.getD r [])]).getD σ.length []
      = zerosLike (σ.getD r []) := by
    rw [List.getD_eq_getElem?_getD, List.getElem?_concat_length]
    rfl
  rw [hbase, cellFold_range, zerosLike, List.length_map]

theorem applySum_getElem?_ne {Cfg : Type} (cfg : Cfg) (σ : Heap) (r i : Nat)
    (hi : i ≠ σ.length) :
    (applySum cfg σ r).1[i]? = σ[i]? := by
  show ((List.range (zerosLike (σ.getD r [])).length).foldl
      (fun s k => s.set σ.length ((s.getD σ.length []).set k (sumAxis0 (σ.getD r []))))
      (σ ++ [zerosLike (σ.getD r [])]))[i]? = σ[i]?
  rw [storeFold_getElem?_ne _ _ _ _ _ hi]
  rcases Nat.lt_or_ge i σ.length with h | h
  · exact List.getElem?_append_left h
  · have hgt : σ.length < i := by omega
    rw [List.getElem?_eq_none (by rw [List.length_append, List.length_singleton]; omega),
      List.getElem?_eq_none (by omega)]

/-- C8: for every heap tensor `reward` of shape T × B with T ≥ 1,
`apply_sum` returns a fresh tensor of the same shape each of whose rows is
the columnwise sum of `reward` (`result[i][j] = sum over t of
reward[t][j]`), and the caller's tensor is not modified. -/
theorem c8_apply_sum {Cfg : Type} (cfg : Cfg) (σ : Heap) (r B : Nat)
    (hr : r < σ.length) (hrect : ∀ row ∈ σ.getD r [], row.length = B)
    (hne : σ.getD r [] ≠ []) :
    ((applySum cfg σ r).1.getD (applySum cfg σ r).2 []).length
        = (σ.getD r []).length ∧
    (∀ row ∈ (applySum cfg σ r).1.getD (applySum cfg σ r).2 [], row.length = B) ∧
    (∀ i j, i < (σ.getD r []).length → j < B →
      entry? ((applySum cfg σ r).1.getD (applySum cfg σ r).2 []) i j
        = some (((σ.getD r []).map (fun row => row.getD j 0)).sum)) ∧
    (applySum cfg σ r).1[r]? = σ[r]? := by
  have hval := applySum_val cfg σ r
  refine ⟨?_, ?_, ?_, ?_⟩
  · rw [hval, List.length_replicate]
  · rw [hval]
    intro row hrow
    rw [List.eq_of_mem_replicate hrow]
    exact sumAxis0_length _ _ hrect hne
  · intro i j hi hj
    rw [hval]
    unfold entry?
    rw [List.getElem?_replicate_of_lt hi, Option.some_bind,
      sumAxis0_eq _ _ hrect hne, List.getElem?_map, List.getElem?_range hj]
    rfl
  · exact applySum_getElem?_ne cfg σ r r (by omega)

/-- C8 witness: on the concrete one-tensor heap holding `[[1,2],[3,4]]`,
`apply_sum` leaves the caller's tensor unchanged and entry (0, 1) of the
result is the sum of column 1. -/
theorem c8_witness :
    entry? ((@applySum Unit () [[[1, 2], [3, 4]]] 0).1.getD
        (@applySum Unit () [[[1, 2], [3, 4]]] 0).2 []) 0 1
      = some (((([[[1, 2], [3, 4]]] : Heap).getD 0 []).map
          (fun row => row.getD 1 0)).sum) ∧
    (@applySum Unit () [[[1, 2], [3, 4]]] 0).1[0]?
      = ([[[1, 2], [3, 4]]] : Heap)[0]? := by
  have H := @c8_apply_sum Unit () [[[1, 2], [3, 4]]] 0 2 (by decide)
    (by decide) (by decide)
  exact ⟨H.2.2.1 0 1 (by decide) (by decide), H.2.2.2⟩

/-- C6 (amended): contrary to the spec's blanket "no deterministic,
language-agnostic behavior exists", `apply_sum` is a deterministic
operation with a framework-independent mathematical reference definition:
on every rectangular tensor its result equals `applySumRef`, the matrix
whose every row is the columnwise sum of the input. -/
theorem c6_apply_sum_reference {Cfg : Type} (cfg : Cfg) (σ : Heap) (r B : Nat)
    (hrect : ∀ row ∈ σ.getD r [], row.length = B) :
    (applySum cfg σ r).1.getD (applySum cfg σ r).2 []
      = applySumRef (σ.getD r []) := by
  rw [applySum_val]
  cases hne : σ.getD r [] with
  | nil => simp [applySumRef]
  | cons row rs =>
    rw [hne] at hrect
    have hB : row.length = B := hrect row (List.mem_cons_self _ _)
    simp only [applySumRef, List.headD_cons]
    rw [List.map_const', List.length_cons]
    congr 1
    rw [sumAxis0_eq (row :: rs) B hrect (by simp), hB]

/-- C6 witness: the reference-equality holds at the concrete heap holding
`[[1,2],[3,4]]`. -/
theorem c6_witness :
    (@applySum Unit () [[[1, 2], [3, 4]]] 0).1.getD
        (@applySum Unit () [[[1, 2], [3, 4]]] 0).2 []
      = applySumRef (([[[1, 2], [3, 4]]] : Heap).getD 0 []) :=
  @c6_apply_sum_reference Unit () [[[1, 2], [3, 4]]] 0 2 (by decide)

/-- C6 counterexample: `apply_sum` is an operation of the program with
deterministic input-output behavior matching a mathematical reference
definition: on the concrete input `[[1,2],[3,4]]` both the code and the
columnwise-sum reference produce `[[4,6],[4,6]]`. -/
theorem c6_counterexample :
    (@applySum Unit () [[[1, 2], [3, 4]]] 0).1.getD
        (@applySum Unit () [[[1, 2], [3, 4]]] 0).2 []
      = [[4, 6], [4, 6]] ∧
    applySumRef [[1, 2], [3, 4]] = [[4, 6], [4, 6]] := by
  have hr2 : List.range 2 = [0, 1] := by decide
  constructor
  · rw [applySum_val]
    norm_num [sumAxis0, List.zipWith, List.replicate]
  · norm_num [applySumRef, hr2]

/-- C10: `setup_entropy_optimizers(cfg)` returns `(None, None)` exactly
when `cfg.algorithm.entropy_mode` differs from `"auto"`; when the mode is
`"auto"` it returns an optimizer over the log-entropy-coefficient
parameter, which is initialized to the (external) logarithm of
`cfg.algorithm.init_entropy_coef`. -/
theorem c10_entropy_optimizers (torchLog : ℚ → ℚ) (cfg : EntCfg) :
    (setupEntropyOptimizers torchLog cfg = (none, none)
        ↔ cfg.algorithm.entropy_mode ≠ "auto") ∧
    (cfg.algorithm.entropy_mode = "auto" →
      setupEntropyOptimizers torchLog cfg
        = (some { optCfg := cfg.entropy_coef_optimizer,
                  params := [torchLog cfg.algorithm.init_entropy_coef] },
           some [torchLog cfg.algorithm.init_entropy_coef])) := by
  constructor
  · by_cases h : cfg.algorithm.entropy_mode = "auto"
    · simp [setupEntropyOptimizers, h]
    · simp [setupEntropyOptimizers, h]
  · intro h
    simp [setupEntropyOptimizers, h, one_mul]

/-- C10 witness: with `entropy_mode = "auto"` and initial coefficient 3,
the function returns the optimizer and the parameter `[log 3]` (the
external log instantiated to the identity for the check). -/
theorem c10_witness :
    setupEntropyOptimizers id
        { algorithm := { entropy_mode := "auto", init_entropy_coef := 3 },
          entropy_coef_optimizer := { id := 7 } }
      = (some { optCfg := { id := 7 }, params := [id (3 : ℚ)] },
         some [id (3 : ℚ)]) :=
  (c10_entropy_optimizers id
    { algorithm := { entropy_mode := "auto", init_entropy_coef := 3 },
      entropy_coef_optimizer := { id := 7 } }).2 rfl

end A2CNotebook
